import Mathlib

/-!
Verification development for the GPU marching-cubes application
(examples/ch02/implicit_surface.rs and examples/ch03/metaball.rs).

The host-side control code is shallowly embedded: u32 arithmetic is
modelled by natural numbers with explicit wrap-around at 2^32
(release-mode Rust semantics), f32 arithmetic is idealized over the
rationals at the decimal value of each literal, mutable state becomes
explicit state passing, and the RNG and wall clock become explicit
oracle parameters.  Functions from external crates (wgpu_simplified,
rand, wgpu) that the embedded code calls are modelled from their
documented interface, which the specification restates; each such
definition is marked in its doc comment.
-/

namespace MarchingCubesApp

/-- Wrapping u32 multiplication: Rust release-mode `a * b` on `u32`. -/
def wmul (a b : Nat) : Nat := (a * b) % 4294967296

/-- Wrapping u32 subtraction: Rust release-mode `a - b` on `u32`
(correct for operands below 2^32). -/
def wsub (a b : Nat) : Nat := (a + 4294967296 - b) % 4294967296

/-- Modelled from the spec: the external `ws::round_to_multiple` of the
wgpu_simplified crate, described in the spec as the configured value
rounded up to a multiple of the compute workgroup tile side. -/
def round_to_multiple (n multiple : Nat) : Nat :=
  ((n + multiple - 1) / multiple) * multiple

/-- Byte sizes of the per-resolution GPU buffers created in `State::new`.
Position, normal and color are three separate `create_buffer` calls that
receive the same size expression. -/
structure BufferSizes where
  value_buffer_size : Nat
  position_buffer_size : Nat
  normal_buffer_size : Nat
  color_buffer_size : Nat
  index_buffer_size : Nat
  int_uniform_size : Nat
  float_uniform_size : Nat
  indirect_buffer_size : Nat
  deriving DecidableEq, Repr

/-- Buffer sizing of the implicit-surface program, transcribed from
`State::new` (implicit_surface.rs:88-93 for the counts and 239-383 for
the `create_buffer` calls).  `marching_cube_cells` is computed from the
requested `resolution`, while `volume_elements` uses the rounded
`resol`; all counts are u32 arithmetic, and the value-buffer size is
multiplied by 4 only after the cast to u64 (`4 * volume_elements as u64`). -/
def implicitBufferSizes (resolution : Nat) : BufferSizes :=
  let resol := round_to_multiple resolution 8
  let marching_cube_cells :=
    wmul (wmul (wsub resolution 1) (wsub resolution 1)) (wsub resolution 1)
  let vertex_count := wmul (wmul 3 12) marching_cube_cells
  let vertex_buffer_size := wmul 4 vertex_count
  let index_count := wmul 15 marching_cube_cells
  let index_buffer_size := wmul 4 index_count
  let volume_elements := wmul (wmul resol resol) resol
  { value_buffer_size := 4 * volume_elements
  , position_buffer_size := vertex_buffer_size
  , normal_buffer_size := vertex_buffer_size
  , color_buffer_size := vertex_buffer_size
  , index_buffer_size := index_buffer_size
  , int_uniform_size := 16
  , float_uniform_size := 16
  , indirect_buffer_size := 16 }

/-- Buffer sizing of the metaball program, transcribed from `State::new`
(metaball.rs:81-88 for the counts, 238-407 for the `create_buffer`
calls); identical to the implicit-surface sizing except that the
workgroup tile side is 4. -/
def metaballBufferSizes (resolution : Nat) : BufferSizes :=
  let resol := round_to_multiple resolution 4
  let marching_cube_cells :=
    wmul (wmul (wsub resolution 1) (wsub resolution 1)) (wsub resolution 1)
  let vertex_count := wmul (wmul 3 12) marching_cube_cells
  let vertex_buffer_size := wmul 4 vertex_count
  let index_count := wmul 15 marching_cube_cells
  let index_buffer_size := wmul 4 index_count
  let volume_elements := wmul (wmul resol resol) resol
  { value_buffer_size := 4 * volume_elements
  , position_buffer_size := vertex_buffer_size
  , normal_buffer_size := vertex_buffer_size
  , color_buffer_size := vertex_buffer_size
  , index_buffer_size := index_buffer_size
  , int_uniform_size := 16
  , float_uniform_size := 16
  , indirect_buffer_size := 16 }

/-- Per-ball record byte size of the metaball program
(metaball.rs:253-258): position vec3 + radius + strength + subtract +
two padding floats. -/
def single_ball_buffer_size : Nat := 3 * 4 + 1 * 4 + 1 * 4 + 1 * 4 + 2 * 4 + 0

/-- Error of the spec's volume-descriptor operation. -/
inductive VolumeError where
  | InvalidResolution
  deriving DecidableEq, Repr

/-- Descriptor returned by the spec's volume-descriptor operation. -/
structure VolumeDesc where
  n : Nat
  m : Nat
  slot_count : Nat
  index_count : Nat
  deriving DecidableEq, Repr

/-- Modelled from the spec: the Volume Descriptor operation of spec §4.2,
`new(requested_resolution, tile)` with `N = ceil(requested/tile)*tile`,
failing with `InvalidResolution` if `requested_resolution < 2` or if
`N^3` would exceed a configured storage-buffer ceiling.  No such
operation or error exists anywhere in the source; this definition
follows the spec's words so the code's behavior can be compared
against it. -/
def volume_descriptor_new (requested tile ceiling : Nat) :
    Except VolumeError VolumeDesc :=
  let n := round_to_multiple requested tile
  if requested < 2 ∨ ceiling < n * n * n then
    Except.error VolumeError.InvalidResolution
  else
    Except.ok { n := n
              , m := (n - 1) * (n - 1) * (n - 1)
              , slot_count := 3 * 12 * ((n - 1) * (n - 1) * (n - 1))
              , index_count := 15 * ((n - 1) * (n - 1) * (n - 1)) }

/-- Keyboard keys handled by the two programs' `State::input`. -/
inductive VirtualKeyCode where
  | space
  | lcontrol
  | lshift
  | lalt
  | q
  | a
  | w
  | s
  | otherKey
  deriving DecidableEq, Repr

/-- Controller state of the implicit-surface program: the fields of
`State` (implicit_surface.rs:44-76) that the per-frame and per-key logic
reads or writes.  `t0` is the absolute time of the last automatic shape
change (a `std::time::Instant`).  GPU handles, matrices and texture
views are modelled separately. -/
structure ImplicitState where
  animation_speed : ℚ
  rotation_speed : ℚ
  resolution : Nat
  surface_type : Nat
  colormap_direction : Nat
  colormap_reverse : Nat
  isolevel : ℚ
  scale : ℚ
  random_shape_change : Nat
  t0 : ℚ
  deriving DecidableEq, Repr

/-- Initial controller state built by the implicit-surface `State::new`
(implicit_surface.rs:474-488); `start_time` is the construction instant. -/
def implicitInitState (resolution : Nat) (start_time : ℚ) : ImplicitState :=
  { animation_speed := 1
  , rotation_speed := 1
  , resolution := round_to_multiple resolution 8
  , surface_type := 2
  , colormap_direction := 1
  , colormap_reverse := 0
  , isolevel := 0
  , scale := 1
  , random_shape_change := 0
  , t0 := start_time }

/-- Keyboard handler of the implicit-surface program, transcribed from
`State::input` (implicit_surface.rs:511-569). -/
def implicitInput (s : ImplicitState) (keycode : VirtualKeyCode) : ImplicitState :=
  match keycode with
  | .space => { s with surface_type := (s.surface_type + 1) % 9 }
  | .lcontrol => { s with colormap_direction := (s.colormap_direction + 1) % 4 }
  | .lshift => { s with random_shape_change := (s.random_shape_change + 1) % 2 }
  | .lalt => { s with colormap_reverse := if s.colormap_reverse = 0 then 1 else 0 }
  | .q => { s with animation_speed := s.animation_speed + 1/10 }
  | .a =>
    let v := s.animation_speed - 1/10
    { s with animation_speed := if v < 0 then 0 else v }
  | .w => { s with rotation_speed := s.rotation_speed + 1/10 }
  | .s =>
    let v := s.rotation_speed - 1/10
    { s with rotation_speed := if v < 0 then 0 else v }
  | .otherKey => s

/-- Surface-name table of the implicit-surface program, transcribed from
`surface_type_map` (implicit_surface.rs:23-37); the `HashMap` becomes a
partial lookup function. -/
def surface_type_map : Nat → Option String
  | 0 => some ("Sphere")
  | 1 => some ("Schwartz Surface")
  | 2 => some ("Blobs")
  | 3 => some ("Klein")
  | 4 => some ("Torus")
  | 5 => some ("Chmutov")
  | 6 => some ("Gyroid")
  | 7 => some ("Cube Sphere")
  | 8 => some ("Ortho Circle")
  | 9 => some ("Spider Cage")
  | 10 => some ("Barth Sextic")
  | _ => none

/-- Modelled from the spec: `rng.gen_range(0..=8)` of the external rand
crate draws a value in `0..=8` (spec §4.7: drawn uniformly at random
from `0..=8`); the oracle `seed` selects which one. -/
def gen_range_0_8 (seed : Nat) : Nat := seed % 9

/-- Queue writes issued by one call to the implicit-surface
`State::update`, one field per destination buffer.  The three
`write_buffer` calls that upload the model, view-projection and normal
matrices to the render-stage vertex uniform are computed by the external
cgmath and wgpu_simplified crates and are not modelled here. -/
structure ImplicitWrites where
  value_int_params : List Nat
  value_float_params : List ℚ
  int_params : List Nat
  float_params : List ℚ
  indirect_array : List Nat
  deriving DecidableEq, Repr

/-- Per-frame update of the implicit-surface program, transcribed from
`State::update` (implicit_surface.rs:571-644): if at least 5 seconds have
elapsed since `t0` and auto rotation is enabled (`random_shape_change ==
0`), a new `surface_type` is drawn and `t0` is reset to the current
instant `now`; then the compute uniform and indirect buffers are written.
`dt_secs` is the duration passed to `update` in seconds. -/
def implicitUpdate (s : ImplicitState) (now dt_secs : ℚ) (seed : Nat) :
    ImplicitState × ImplicitWrites :=
  let s1 := if 5 ≤ now - s.t0 ∧ s.random_shape_change = 0 then
      { s with surface_type := gen_range_0_8 seed, t0 := now }
    else s
  (s1,
   { value_int_params := [s1.resolution, s1.surface_type, 0, 0]
   , value_float_params := [s1.animation_speed * dt_secs, 0, 0, 0]
   , int_params :=
      [s1.resolution, s1.surface_type, s1.colormap_direction, s1.colormap_reverse]
   , float_params := [s1.isolevel, s1.scale, 0, 0]
   , indirect_array := [500, 0, 0, 0] })

/-- Events of the implicit-surface event loop that reach the controller
state: a pressed key (dispatched to `State::input`), a redraw (which
calls `State::update` with the current instant, the elapsed duration and
a fresh RNG draw), and any other window event, which leaves the
controller state unchanged (resize only touches views and matrices,
implicit_surface.rs:748-791). -/
inductive ImplicitEvent where
  | key (keycode : VirtualKeyCode)
  | redraw (now dt_secs : ℚ) (seed : Nat)
  | otherEvent

/-- One event-loop step of the implicit-surface program acting on the
controller state. -/
def implicitStep (s : ImplicitState) : ImplicitEvent → ImplicitState
  | .key keycode => implicitInput s keycode
  | .redraw now dt_secs seed => (implicitUpdate s now dt_secs seed).1
  | .otherEvent => s

/-- Iterated event-loop steps of the implicit-surface program. -/
def implicitRun (s : ImplicitState) : List ImplicitEvent → ImplicitState
  | [] => s
  | e :: es => implicitRun (implicitStep s e) es

/-- One metaball of the metaball program, transcribed from the
`MetaballPosition` struct (metaball.rs:23-32). -/
structure MetaballPosition where
  x : ℚ
  y : ℚ
  z : ℚ
  vx : ℚ
  vy : ℚ
  vz : ℚ
  speed : ℚ
  deriving DecidableEq, Repr

/-- Boundary reflection of one coordinate, transcribed from the per-axis
blocks of the metaball `State::update` (metaball.rs:597-620): clamp the
position to `[-sz, sz]` and negate the velocity component when a clamp
fires.  The same block appears once per axis in the source. -/
def reflectAxis (sz p v : ℚ) : ℚ × ℚ :=
  if p > sz then (sz, v * -1)
  else if p < -sz then (-sz, v * -1)
  else (p, v)

/-- Physics step for one metaball, transcribed from the first loop of the
metaball `State::update` (metaball.rs:586-621): center-directed
acceleration, Euler integration with factor `dt1 * 0.0001`, then boundary
reflection at `sz = 3.1` on each axis. -/
def metaballStepBall (dt1 : ℚ) (b : MetaballPosition) : MetaballPosition :=
  let vx := b.vx + -b.x * b.speed * 20
  let vy := b.vy + -b.y * b.speed * 20
  let vz := b.vz + -b.z * b.speed * 20
  let x := b.x + vx * dt1 * (1/10000)
  let y := b.y + vy * dt1 * (1/10000)
  let z := b.z + vz * dt1 * (1/10000)
  let rx := reflectAxis (31/10) x vx
  let ry := reflectAxis (31/10) y vy
  let rz := reflectAxis (31/10) z vz
  { x := rx.1, y := ry.1, z := rz.1
  , vx := rx.2, vy := ry.2, vz := rz.2
  , speed := b.speed }

/-- Write of one 8-float metaball record into the host-side staging
array, transcribed from the body of the second loop of the metaball
`State::update` (metaball.rs:623-632): `offset = i * 8`; entries 0..2 are
the position, entry 3 the radius, entry 4 the strength, entry 5 the
subtract value, and entries 6..7 (the padding) are not written.  The
mutable `Vec<f32>` is modelled as a total function from index to
value. -/
def writeBallRecord (b : MetaballPosition) (radius strength subtract : ℚ)
    (i : Nat) (a : Nat → ℚ) : Nat → ℚ :=
  fun j =>
    if j = i * 8 then b.x
    else if j = i * 8 + 1 then b.y
    else if j = i * 8 + 2 then b.z
    else if j = i * 8 + 3 then radius
    else if j = i * 8 + 4 then strength
    else if j = i * 8 + 5 then subtract
    else a j

/-- Record-filling loop of the metaball `State::update`
(metaball.rs:623-632), walking the ball list with a running record
index. -/
def fillMetaballArray (radius strength subtract : ℚ) :
    Nat → List MetaballPosition → (Nat → ℚ) → (Nat → ℚ)
  | _, [], a => a
  | i, b :: bs, a =>
    fillMetaballArray radius strength subtract (i + 1) bs
      (writeBallRecord b radius strength subtract i a)

/-- Relaxation formula `current + (target - current) * dt1 * 0.2` from
the metaball `State::update` (metaball.rs:583-584). -/
def relaxedValue (current target dt1 : ℚ) : ℚ :=
  current + (target - current) * dt1 * (2/10)

/-- Controller state of the metaball program: the fields of `State`
(metaball.rs:34-69) that the per-frame and per-key logic reads or
writes.  `start` is the instant of the previous frame (reset every
frame) and `t0` the instant used by the 5-second target-resample check
(set at construction). -/
structure MetaballState where
  resolution : Nat
  metaballs_count : Nat
  colormap_direction : Nat
  colormap_reverse : Nat
  isolevel : ℚ
  scale : ℚ
  metaball_positions : List MetaballPosition
  metaball_array : Nat → ℚ
  strength : ℚ
  strength_target : ℚ
  subtract : ℚ
  subtract_target : ℚ
  start : ℚ
  t0 : ℚ

/-- Initial controller state built by the metaball `State::new`
(metaball.rs:466-516 with the counts of lines 81-88 and the zero-filled
staging array of line 260); the 200 random initial ball positions drawn
at lines 272-282 are passed in as `positions`, and `t` is the
construction instant stored in both `start` and `t0`. -/
def metaballInitState (resolution : Nat) (positions : List MetaballPosition)
    (t : ℚ) : MetaballState :=
  { resolution := round_to_multiple resolution 4
  , metaballs_count := 200
  , colormap_direction := 1
  , colormap_reverse := 0
  , isolevel := 20
  , scale := 1/2
  , metaball_positions := positions
  , metaball_array := fun _ => 0
  , strength := 1
  , strength_target := 1
  , subtract := 1
  , subtract_target := 1
  , start := t
  , t0 := t }

/-- Keyboard handler of the metaball program, transcribed from
`State::input` (metaball.rs:545-568). -/
def metaballInput (s : MetaballState) (keycode : VirtualKeyCode) : MetaballState :=
  match keycode with
  | .space => { s with colormap_direction := (s.colormap_direction + 1) % 4 }
  | .lcontrol => { s with colormap_reverse := if s.colormap_reverse = 0 then 1 else 0 }
  | _ => s

/-- Queue writes issued by one call to the metaball `State::update`, one
field per destination buffer. -/
structure MetaballWrites where
  value_int_params : List Nat
  metaball_array_upload : Nat → ℚ
  int_params : List Nat
  float_params : List ℚ
  indirect_array : List Nat

/-- Per-frame update of the metaball program, transcribed from
`State::update` (metaball.rs:570-674): write the field-pass integer
uniform; compute the inter-frame duration `dt1` from `start` and reset
`start`; relax `subtract` and `strength` toward their targets; step and
reflect every ball; fill and upload the record array with radius
`sqrt(strength / subtract)`; write the extraction integer and float
uniforms and the indirect parameters; finally, if at least 5 seconds
have elapsed since `t0`, draw new targets `3 * u + 3` from two uniform
`[0,1)` samples (`u1` for `subtract_target` first, then `u2` for
`strength_target`) — `t0` itself is never modified.  The external f32
square root is the oracle parameter `sqrtFn`. -/
def metaballUpdate (s : MetaballState) (now u1 u2 : ℚ) (sqrtFn : ℚ → ℚ) :
    MetaballState × MetaballWrites :=
  let value_int_params := [s.resolution, s.metaballs_count, 0, 0]
  let dt1 := now - s.start
  let subtract1 := relaxedValue s.subtract s.subtract_target dt1
  let strength1 := relaxedValue s.strength s.strength_target dt1
  let positions1 := s.metaball_positions.map (metaballStepBall dt1)
  let arr1 := fillMetaballArray (sqrtFn (strength1 / subtract1)) strength1 subtract1
      0 positions1 s.metaball_array
  let int_params := [s.resolution, s.colormap_direction, s.colormap_reverse]
  let float_params := [s.isolevel, s.scale, 0, 0]
  let indirect_array := [500, 0, 0, 0]
  let elapsed := now - s.t0
  let subtract_target1 := if 5 ≤ elapsed then 3 * u1 + 3 else s.subtract_target
  let strength_target1 := if 5 ≤ elapsed then 3 * u2 + 3 else s.strength_target
  ({ s with start := now
          , subtract := subtract1
          , strength := strength1
          , metaball_positions := positions1
          , metaball_array := arr1
          , subtract_target := subtract_target1
          , strength_target := strength_target1 },
   { value_int_params := value_int_params
   , metaball_array_upload := arr1
   , int_params := int_params
   , float_params := float_params
   , indirect_array := indirect_array })

/-- Projection matrix, identified by the aspect ratio it was built
from.  Modelled from the spec: the external `ws::create_projection_mat`
(wgpu_simplified) builds the projection from the aspect ratio (its
second argument, the perspective flag, is the constant `true` at every
call site). -/
structure ProjectionMat where
  aspect : ℚ
  deriving DecidableEq, Repr

/-- Depth texture view, identified by the surface size it was built
for.  Modelled from the spec: the external `ws::create_depth_view`
builds the view from the current surface configuration. -/
structure DepthTextureView where
  width : Nat
  height : Nat
  deriving DecidableEq, Repr

/-- MSAA texture view, identified by the surface size it was built for.
Modelled from the spec: the external `ws::create_msaa_texture_view`
builds the view from the current surface configuration. -/
structure MsaaTextureView where
  width : Nat
  height : Nat
  deriving DecidableEq, Repr

/-- Modelled from the spec (see `ProjectionMat`). -/
def create_projection_mat (aspect : ℚ) : ProjectionMat := { aspect := aspect }

/-- Modelled from the spec (see `DepthTextureView`). -/
def create_depth_view (width height : Nat) : DepthTextureView :=
  { width := width, height := height }

/-- Modelled from the spec (see `MsaaTextureView`). -/
def create_msaa_texture_view (width height : Nat) : MsaaTextureView :=
  { width := width, height := height }

/-- Resources touched or deliberately untouched by `State::resize`:
surface size/config, projection matrix, the two rebuildable texture
views, and — as opaque identities that resize must preserve — the
storage buffers and the pipelines.  Shared by both programs. -/
structure ResizeState where
  width : Nat
  height : Nat
  sample_count : Nat
  project_mat : ProjectionMat
  depth_texture_view : DepthTextureView
  msaa_texture_view : MsaaTextureView
  storage_buffer_sizes : List Nat
  pipelines : Nat
  deriving DecidableEq, Repr

/-- Window-resize handler, transcribed from `State::resize`
(implicit_surface.rs:492-508 and metaball.rs:519-542, which have
identical logic on the fields modelled here): when both dimensions are
positive, store the new size, reconfigure the surface, recompute the
projection matrix from the new aspect ratio, rebuild the depth view and
— only when `sample_count > 1` — the MSAA view; otherwise do nothing.
Storage buffers and pipelines are not mentioned by either
implementation.  The metaball version additionally rewrites the
view-projection uniform (a uniform buffer, not a storage buffer) from
the new projection matrix. -/
def resize (s : ResizeState) (new_width new_height : Nat) : ResizeState :=
  if 0 < new_width ∧ 0 < new_height then
    { s with width := new_width
           , height := new_height
           , project_mat :=
              create_projection_mat ((new_width : ℚ) / (new_height : ℚ))
           , depth_texture_view := create_depth_view new_width new_height
           , msaa_texture_view :=
              if 1 < s.sample_count then
                create_msaa_texture_view new_width new_height
              else s.msaa_texture_view }
  else s

/-- Surface errors of the graphics API (the four variants of
`wgpu::SurfaceError`). -/
inductive SurfaceError where
  | Lost
  | Outdated
  | Timeout
  | OutOfMemory
  deriving DecidableEq, Repr

/-- Reaction of the event loop to the result of `State::render`. -/
inductive LoopAction where
  | keepRunning
  | exitLoop
  | resizeAtCurrentSize
  | logErrorAndContinue
  deriving DecidableEq, Repr

/-- Event-loop handling of the render result, transcribed from the
`RedrawRequested` match arm of `main` (implicit_surface.rs:780-785 and
metaball.rs:810-815, identical): success continues; `Lost` calls
`state.resize(state.init.size)` (the current size) and continues;
`OutOfMemory` sets `ControlFlow::Exit`; every other error is printed
and the loop continues. -/
def handleRenderResult : Option SurfaceError → LoopAction
  | none => LoopAction.keepRunning
  | some SurfaceError.Lost => LoopAction.resizeAtCurrentSize
  | some SurfaceError.OutOfMemory => LoopAction.exitLoop
  | some _ => LoopAction.logErrorAndContinue

/-- Corrected sizing formulas for one requested resolution: the value
buffer uses the effective (rounded) resolution, while the geometry
buffers use the requested resolution and 4 bytes per vertex slot. -/
def sizesMatchCorrectedFormulas (resolution : Nat) : Prop :=
  (implicitBufferSizes resolution).value_buffer_size
      = 4 * (round_to_multiple resolution 8 * round_to_multiple resolution 8 *
             round_to_multiple resolution 8) ∧
  (implicitBufferSizes resolution).position_buffer_size
      = 4 * (3 * 12 * ((resolution - 1) * (resolution - 1) * (resolution - 1))) ∧
  (implicitBufferSizes resolution).normal_buffer_size
      = (implicitBufferSizes resolution).position_buffer_size ∧
  (implicitBufferSizes resolution).color_buffer_size
      = (implicitBufferSizes resolution).position_buffer_size ∧
  (implicitBufferSizes resolution).index_buffer_size
      = 4 * (15 * ((resolution - 1) * (resolution - 1) * (resolution - 1))) ∧
  (implicitBufferSizes resolution).int_uniform_size = 16 ∧
  (implicitBufferSizes resolution).float_uniform_size = 16 ∧
  (implicitBufferSizes resolution).indirect_buffer_size = 16 ∧
  (metaballBufferSizes resolution).value_buffer_size
      = 4 * (round_to_multiple resolution 4 * round_to_multiple resolution 4 *
             round_to_multiple resolution 4) ∧
  (metaballBufferSizes resolution).position_buffer_size
      = 4 * (3 * 12 * ((resolution - 1) * (resolution - 1) * (resolution - 1))) ∧
  (metaballBufferSizes resolution).normal_buffer_size
      = (metaballBufferSizes resolution).position_buffer_size ∧
  (metaballBufferSizes resolution).color_buffer_size
      = (metaballBufferSizes resolution).position_buffer_size ∧
  (metaballBufferSizes resolution).index_buffer_size
      = 4 * (15 * ((resolution - 1) * (resolution - 1) * (resolution - 1)))

instance (resolution : Nat) : Decidable (sizesMatchCorrectedFormulas resolution) := by
  unfold sizesMatchCorrectedFormulas
  infer_instance

/-- Padding entries (offsets 6 and 7 of each 8-float record) of the
staging array are zero for the first `count` records. -/
def recordPadsZero (count : Nat) (a : Nat → ℚ) : Prop :=
  ∀ i, i < count → a (i * 8 + 6) = 0 ∧ a (i * 8 + 7) = 0

/-- Concrete metaball used to instantiate universally quantified
statements; its position is outside the `[-3.1, 3.1]` cube, as the
initial positions of `State::new` may be. -/
def sampleBall : MetaballPosition :=
  { x := 4, y := -5, z := 0, vx := 0, vy := 1000, vz := 0, speed := 1 }

/-- Concrete metaball program state with 200 balls, used to instantiate
universally quantified statements. -/
def sampleMetaballState : MetaballState :=
  metaballInitState 192 (List.replicate 200 sampleBall) 0

/-- Concrete resize-relevant state, used to instantiate universally
quantified statements. -/
def sampleResizeState : ResizeState :=
  { width := 4
  , height := 3
  , sample_count := 1
  , project_mat := { aspect := 4/3 }
  , depth_texture_view := { width := 4, height := 3 }
  , msaa_texture_view := { width := 4, height := 3 }
  , storage_buffer_sizes := [2048, 144, 144, 144, 60, 16]
  , pipelines := 2 }

/-- Unfolding equation for the state component of `implicitUpdate`. -/
theorem implicitUpdate_fst (s : ImplicitState) (now dt_secs : ℚ) (seed : Nat) :
    (implicitUpdate s now dt_secs seed).1 =
      if 5 ≤ now - s.t0 ∧ s.random_shape_change = 0 then
        { s with surface_type := gen_range_0_8 seed, t0 := now }
      else s := rfl

/-- Unfolding equation for the ball list produced by `metaballUpdate`. -/
theorem metaballUpdate_positions (s : MetaballState) (now u1 u2 : ℚ)
    (sqrtFn : ℚ → ℚ) :
    (metaballUpdate s now u1 u2 sqrtFn).1.metaball_positions =
      s.metaball_positions.map (metaballStepBall (now - s.start)) := rfl

/-- Unfolding equation for the staging-array upload of `metaballUpdate`. -/
theorem metaballUpdate_upload (s : MetaballState) (now u1 u2 : ℚ)
    (sqrtFn : ℚ → ℚ) :
    (metaballUpdate s now u1 u2 sqrtFn).2.metaball_array_upload =
      fillMetaballArray
        (sqrtFn (relaxedValue s.strength s.strength_target (now - s.start) /
                 relaxedValue s.subtract s.subtract_target (now - s.start)))
        (relaxedValue s.strength s.strength_target (now - s.start))
        (relaxedValue s.subtract s.subtract_target (now - s.start))
        0 (s.metaball_positions.map (metaballStepBall (now - s.start)))
        s.metaball_array := rfl

/-- Unfolding equation for the subtract target produced by
`metaballUpdate`. -/
theorem metaballUpdate_subtract_target (s : MetaballState) (now u1 u2 : ℚ)
    (sqrtFn : ℚ → ℚ) :
    (metaballUpdate s now u1 u2 sqrtFn).1.subtract_target =
      if 5 ≤ now - s.t0 then 3 * u1 + 3 else s.subtract_target := rfl

/-- Unfolding equation for the strength target produced by
`metaballUpdate`. -/
theorem metaballUpdate_strength_target (s : MetaballState) (now u1 u2 : ℚ)
    (sqrtFn : ℚ → ℚ) :
    (metaballUpdate s now u1 u2 sqrtFn).1.strength_target =
      if 5 ≤ now - s.t0 then 3 * u2 + 3 else s.strength_target := rfl

/-- Unfolding equation for the resample instant `t0`, which
`metaballUpdate` never modifies. -/
theorem metaballUpdate_t0 (s : MetaballState) (now u1 u2 : ℚ)
    (sqrtFn : ℚ → ℚ) :
    (metaballUpdate s now u1 u2 sqrtFn).1.t0 = s.t0 := rfl

/-- Reflection clamps to the upper boundary and negates the velocity
when the position exceeds it. -/
theorem reflectAxis_high (sz p v : ℚ) (h : p > sz) :
    reflectAxis sz p v = (sz, v * -1) := by
  unfold reflectAxis
  rw [if_pos h]

/-- Reflection clamps to the lower boundary and negates the velocity
when the position is below it. -/
theorem reflectAxis_low (sz p v : ℚ) (hsz : 0 ≤ sz) (h : p < -sz) :
    reflectAxis sz p v = (-sz, v * -1) := by
  unfold reflectAxis
  rw [if_neg (by linarith), if_pos h]

/-- Reflection leaves position and velocity alone inside the boundary. -/
theorem reflectAxis_mid (sz p v : ℚ) (h1 : -sz ≤ p) (h2 : p ≤ sz) :
    reflectAxis sz p v = (p, v) := by
  unfold reflectAxis
  rw [if_neg (by linarith), if_neg (by linarith)]

/-- Reflected positions land inside the boundary. -/
theorem reflectAxis_fst_mem (sz p v : ℚ) (hsz : 0 ≤ sz) :
    -sz ≤ (reflectAxis sz p v).1 ∧ (reflectAxis sz p v).1 ≤ sz := by
  unfold reflectAxis
  split_ifs with h1 h2
  · exact ⟨(by linarith : -sz ≤ sz), le_refl sz⟩
  · exact ⟨le_refl (-sz), (by linarith : -sz ≤ sz)⟩
  · push_neg at h1 h2
    exact ⟨h2, h1⟩

/-- Every coordinate of a stepped ball lies in `[-3.1, 3.1]`. -/
theorem metaballStepBall_mem (dt1 : ℚ) (b : MetaballPosition) :
    (-(31/10) ≤ (metaballStepBall dt1 b).x ∧ (metaballStepBall dt1 b).x ≤ 31/10) ∧
    (-(31/10) ≤ (metaballStepBall dt1 b).y ∧ (metaballStepBall dt1 b).y ≤ 31/10) ∧
    (-(31/10) ≤ (metaballStepBall dt1 b).z ∧ (metaballStepBall dt1 b).z ≤ 31/10) := by
  refine ⟨?_, ?_, ?_⟩ <;>
    exact reflectAxis_fst_mem (31/10) _ _ (by norm_num)

/-- One event-loop step keeps `surface_type` below 9. -/
theorem implicitStep_surface_type_lt (s : ImplicitState) (e : ImplicitEvent)
    (h : s.surface_type < 9) : (implicitStep s e).surface_type < 9 := by
  cases e with
  | key keycode =>
    cases keycode <;>
      first
      | exact h
      | exact Nat.mod_lt _ (by norm_num)
  | redraw now dt_secs seed =>
    show ((implicitUpdate s now dt_secs seed).1).surface_type < 9
    rw [implicitUpdate_fst]
    split
    · exact Nat.mod_lt _ (by norm_num)
    · exact h
  | otherEvent => exact h

/-- Iterated event-loop steps keep `surface_type` below 9. -/
theorem implicitRun_surface_type_lt (s : ImplicitState)
    (events : List ImplicitEvent) (h : s.surface_type < 9) :
    (implicitRun s events).surface_type < 9 := by
  induction events generalizing s with
  | nil => exact h
  | cons e es ih => exact ih _ (implicitStep_surface_type_lt s e h)

/-- Record writes never touch indices whose residue mod 8 is 6 or 7
(the padding slots). -/
theorem writeBallRecord_pad (b : MetaballPosition) (radius strength subtract : ℚ)
    (i : Nat) (a : Nat → ℚ) (j : Nat) (hj : 6 ≤ j % 8) :
    writeBallRecord b radius strength subtract i a j = a j := by
  unfold writeBallRecord
  rw [if_neg (by omega), if_neg (by omega), if_neg (by omega),
      if_neg (by omega), if_neg (by omega), if_neg (by omega)]

/-- The record-filling loop never touches padding slots. -/
theorem fillMetaballArray_pad (radius strength subtract : ℚ)
    (bs : List MetaballPosition) (k : Nat) (a : Nat → ℚ) (j : Nat)
    (hj : 6 ≤ j % 8) :
    fillMetaballArray radius strength subtract k bs a j = a j := by
  induction bs generalizing k a with
  | nil => rfl
  | cons b bs ih =>
    show fillMetaballArray radius strength subtract (k + 1) bs
        (writeBallRecord b radius strength subtract k a) j = a j
    rw [ih, writeBallRecord_pad _ _ _ _ _ _ _ hj]

/-- The record-filling loop starting at record `k` never touches indices
below `k * 8`. -/
theorem fillMetaballArray_below (radius strength subtract : ℚ)
    (bs : List MetaballPosition) (k : Nat) (a : Nat → ℚ) (j : Nat)
    (hj : j < k * 8) :
    fillMetaballArray radius strength subtract k bs a j = a j := by
  induction bs generalizing k a with
  | nil => rfl
  | cons b bs ih =>
    show fillMetaballArray radius strength subtract (k + 1) bs
        (writeBallRecord b radius strength subtract k a) j = a j
    rw [ih _ _ (by omega)]
    unfold writeBallRecord
    rw [if_neg (by omega), if_neg (by omega), if_neg (by omega),
        if_neg (by omega), if_neg (by omega), if_neg (by omega)]

/-- The radius, strength and subtract slots of every filled record hold
the three arguments of the loop. -/
theorem fillMetaballArray_fields (radius strength subtract : ℚ)
    (bs : List MetaballPosition) (k p : Nat) (a : Nat → ℚ)
    (hp : p < bs.length) :
    fillMetaballArray radius strength subtract k bs a ((k + p) * 8 + 3) = radius ∧
    fillMetaballArray radius strength subtract k bs a ((k + p) * 8 + 4) = strength ∧
    fillMetaballArray radius strength subtract k bs a ((k + p) * 8 + 5) = subtract := by
  induction bs generalizing k p a with
  | nil => simp at hp
  | cons b bs ih =>
    cases p with
    | zero =>
      refine ⟨?_, ?_, ?_⟩ <;>
      · show fillMetaballArray radius strength subtract (k + 1) bs
            (writeBallRecord b radius strength subtract k a) _ = _
        rw [fillMetaballArray_below _ _ _ _ _ _ _ (by omega)]
        simp only [writeBallRecord]
        split_ifs <;> first | rfl | omega
    | succ p =>
      have hp2 : p < bs.length := by
        simp only [List.length_cons] at hp
        omega
      have hk : k + (p + 1) = (k + 1) + p := by omega
      rw [hk]
      exact ih (k + 1) p (writeBallRecord b radius strength subtract k a) hp2

/-- Claim C1, counterexample: at requested resolution 100 the effective
resolution is 104, but the position buffer is 4·(3·12·99³) = 139723056
bytes — not the claimed 4·3·12·(104−1)³·4 = 629410752 bytes computed
from the effective resolution with 16 bytes per vertex slot. -/
theorem buffer_size_claim_counterexample :
    round_to_multiple 100 8 = 104 ∧
    (implicitBufferSizes 100).position_buffer_size = 139723056 ∧
    4 * (3 * 12 * ((104 - 1) * (104 - 1) * (104 - 1))) * 4 = 629410752 ∧
    (implicitBufferSizes 100).position_buffer_size ≠
      4 * (3 * 12 * ((104 - 1) * (104 - 1) * (104 - 1))) * 4 := by
  refine ⟨by decide, by decide, by decide, by decide⟩

set_option maxRecDepth 40000 in
/-- Claim C1, amended: for requested resolutions in `[2, 300]`, the value
buffer is 4·N³ bytes with N the effective (rounded-up) resolution, while
the position, normal and color buffers are each 4·(3·12·M) bytes — 4
bytes per vertex slot — and the index buffer 4·(15·M) bytes with
M = (R−1)³ computed from the requested resolution R; the int, float and
indirect parameter buffers are 16 bytes; identically in both programs
(tiles 8 and 4). -/
theorem buffer_sizes_formula :
    ∀ resolution : Nat, 2 ≤ resolution → resolution ≤ 300 →
      sizesMatchCorrectedFormulas resolution := by
  have h : ∀ resolution : Nat, resolution < 301 → 2 ≤ resolution →
      sizesMatchCorrectedFormulas resolution := by decide
  intro r h2 h3
  exact h r (by omega) h2

/-- Claim C1, witness at the default resolution 192. -/
theorem buffer_sizes_formula_witness :
    2 ≤ 192 ∧ 192 ≤ 300 ∧ sizesMatchCorrectedFormulas 192 :=
  ⟨by decide, by decide, buffer_sizes_formula 192 (by decide) (by decide)⟩

/-- Claim C2, counterexample: in the metaball program, one frame after
construction at resolution 192 the extraction integer uniform receives
only the three values `[resolution, colormap_direction,
colormap_reverse]` — 12 of its 16 bytes — not four values. -/
theorem extract_uniform_claim_counterexample :
    (metaballUpdate (metaballInitState 192 [] 0) 1 0 0 id).2.int_params
      = [192, 1, 0] ∧
    ((metaballUpdate (metaballInitState 192 [] 0) 1 0 0 id).2.int_params).length
      = 3 ∧
    ((metaballUpdate (metaballInitState 192 [] 0) 1 0 0 id).2.int_params).length
      ≠ 4 := by
  refine ⟨rfl, rfl, by decide⟩

/-- Claim C2, amended: every frame the implicit-surface program writes
the extraction integer uniform with the four values `[resolution,
surface_type, colormap_direction, colormap_reverse]` (surface_type taken
after any automatic shape change of the same frame), but the metaball
program writes only the three values `[resolution, colormap_direction,
colormap_reverse]`, leaving the last 4 of the 16 bytes unwritten. -/
theorem extract_int_uniform_contents :
    (∀ (s : ImplicitState) (now dt_secs : ℚ) (seed : Nat),
        (implicitUpdate s now dt_secs seed).2.int_params =
          [s.resolution, (implicitUpdate s now dt_secs seed).1.surface_type,
           s.colormap_direction, s.colormap_reverse] ∧
        ((implicitUpdate s now dt_secs seed).2.int_params).length = 4) ∧
    (∀ (s : MetaballState) (now u1 u2 : ℚ) (sqrtFn : ℚ → ℚ),
        (metaballUpdate s now u1 u2 sqrtFn).2.int_params =
          [s.resolution, s.colormap_direction, s.colormap_reverse] ∧
        ((metaballUpdate s now u1 u2 sqrtFn).2.int_params).length = 3) := by
  constructor
  · intro s now dt_secs seed
    refine ⟨?_, rfl⟩
    simp only [implicitUpdate]
    split <;> rfl
  · intro s now u1 u2 sqrtFn
    exact ⟨rfl, rfl⟩

/-- Claim C3: each frame relaxes `strength` and `subtract` toward their
targets by `(target − current) · dt1 · 0.2` and leaves `t0` unchanged —
and precisely because `t0` is never reset, the 5-second resample fires
on every subsequent frame: starting at time 0, an update at t = 5 draws
new targets (subtract_target 1 → 3), and the very next update at
t = 5.1 draws again (3 → 9/2), instead of waiting another 5 seconds. -/
theorem metaball_target_resample_bug :
    (∀ (s : MetaballState) (now u1 u2 : ℚ) (sqrtFn : ℚ → ℚ),
        (metaballUpdate s now u1 u2 sqrtFn).1.strength
          = relaxedValue s.strength s.strength_target (now - s.start) ∧
        (metaballUpdate s now u1 u2 sqrtFn).1.subtract
          = relaxedValue s.subtract s.subtract_target (now - s.start) ∧
        (metaballUpdate s now u1 u2 sqrtFn).1.t0 = s.t0) ∧
    (metaballInitState 192 [] 0).subtract_target = 1 ∧
    (metaballUpdate (metaballInitState 192 [] 0) 5 0 0 id).1.subtract_target
      = 3 ∧
    (metaballUpdate ((metaballUpdate (metaballInitState 192 [] 0) 5 0 0 id).1)
        (51/10) (1/2) (1/2) id).1.subtract_target = 9/2 := by
  refine ⟨fun s now u1 u2 sqrtFn => ⟨rfl, rfl, rfl⟩, rfl, ?_, ?_⟩
  · rw [metaballUpdate_subtract_target,
        if_pos (by norm_num [metaballInitState] : (5:ℚ) ≤ 5 - (metaballInitState 192 [] 0).t0)]
    norm_num
  · rw [metaballUpdate_subtract_target, metaballUpdate_t0,
        if_pos (by norm_num [metaballInitState] :
          (5:ℚ) ≤ 51/10 - (metaballInitState 192 [] 0).t0)]
    norm_num

/-- Claim C4, counterexample: the spec's volume-descriptor operation
rejects requested resolution 1 with `InvalidResolution`, but the code's
`State::new` proceeds: it allocates a 2048-byte value buffer (effective
resolution 8) and zero-byte position and index buffers. -/
theorem volume_descriptor_counterexample :
    volume_descriptor_new 1 8 1073741824
      = Except.error VolumeError.InvalidResolution ∧
    (implicitBufferSizes 1).value_buffer_size = 2048 ∧
    (implicitBufferSizes 1).position_buffer_size = 0 ∧
    (implicitBufferSizes 1).index_buffer_size = 0 := by
  refine ⟨rfl, by decide, by decide, by decide⟩

/-- Claim C4, amended: construction performs no resolution validation
and no storage-ceiling check — there is no `InvalidResolution` error in
the code.  Requested resolution 1 proceeds with zero cells (zero-sized
geometry buffers, 2048-byte value buffer; metaball program: 256-byte
value buffer), and requested resolution 0 wraps the u32 cell count
(release semantics), producing near-2³² buffer sizes; the spec-modelled
descriptor instead rejects both inputs. -/
theorem resolution_no_validation :
    volume_descriptor_new 0 8 1073741824
      = Except.error VolumeError.InvalidResolution ∧
    volume_descriptor_new 1 8 1073741824
      = Except.error VolumeError.InvalidResolution ∧
    volume_descriptor_new 1 4 1073741824
      = Except.error VolumeError.InvalidResolution ∧
    implicitBufferSizes 1 =
      { value_buffer_size := 2048
      , position_buffer_size := 0
      , normal_buffer_size := 0
      , color_buffer_size := 0
      , index_buffer_size := 0
      , int_uniform_size := 16
      , float_uniform_size := 16
      , indirect_buffer_size := 16 } ∧
    metaballBufferSizes 1 =
      { value_buffer_size := 256
      , position_buffer_size := 0
      , normal_buffer_size := 0
      , color_buffer_size := 0
      , index_buffer_size := 0
      , int_uniform_size := 16
      , float_uniform_size := 16
      , indirect_buffer_size := 16 } ∧
    implicitBufferSizes 0 =
      { value_buffer_size := 0
      , position_buffer_size := 4294967152
      , normal_buffer_size := 4294967152
      , color_buffer_size := 4294967152
      , index_buffer_size := 4294967236
      , int_uniform_size := 16
      , float_uniform_size := 16
      , indirect_buffer_size := 16 } := by
  refine ⟨rfl, rfl, rfl, by decide, by decide, by decide⟩

/-- Claim C5: after the per-ball step (acceleration `v += −p·speed·20`,
integration `p += v·dt1·1e−4`, then boundary handling), every coordinate
of every ball — including those of every ball produced by a call to the
metaball update, whatever its prior position — lies in `[−3.1, 3.1]`,
and the reflection clamps the coordinate to the boundary and negates the
corresponding velocity component exactly when the integrated coordinate
left the cube, leaving both untouched otherwise. -/
theorem metaball_reflect_bounds :
    (∀ (dt1 : ℚ) (b : MetaballPosition),
        (-(31/10) ≤ (metaballStepBall dt1 b).x ∧ (metaballStepBall dt1 b).x ≤ 31/10) ∧
        (-(31/10) ≤ (metaballStepBall dt1 b).y ∧ (metaballStepBall dt1 b).y ≤ 31/10) ∧
        (-(31/10) ≤ (metaballStepBall dt1 b).z ∧ (metaballStepBall dt1 b).z ≤ 31/10)) ∧
    (∀ (s : MetaballState) (now u1 u2 : ℚ) (sqrtFn : ℚ → ℚ)
        (b1 : MetaballPosition),
        b1 ∈ (metaballUpdate s now u1 u2 sqrtFn).1.metaball_positions →
        (-(31/10) ≤ b1.x ∧ b1.x ≤ 31/10) ∧
        (-(31/10) ≤ b1.y ∧ b1.y ≤ 31/10) ∧
        (-(31/10) ≤ b1.z ∧ b1.z ≤ 31/10)) ∧
    (∀ p v : ℚ, 31/10 < p → reflectAxis (31/10) p v = (31/10, v * -1)) ∧
    (∀ p v : ℚ, p < -(31/10) → reflectAxis (31/10) p v = (-(31/10), v * -1)) ∧
    (∀ p v : ℚ, -(31/10) ≤ p → p ≤ 31/10 → reflectAxis (31/10) p v = (p, v)) := by
  refine ⟨metaballStepBall_mem, ?_, ?_, ?_, ?_⟩
  · intro s now u1 u2 sqrtFn b1 hb
    rw [metaballUpdate_positions] at hb
    rcases List.mem_map.mp hb with ⟨b, _, rfl⟩
    exact metaballStepBall_mem _ _
  · intro p v h
    exact reflectAxis_high _ _ _ h
  · intro p v h
    exact reflectAxis_low _ _ _ (by norm_num) h
  · intro p v h1 h2
    exact reflectAxis_mid _ _ _ h1 h2

/-- Claim C5, witness: the sample ball starts at x = 4 outside the cube
and is inside `[−3.1, 3.1]` after one step; a concrete out-of-range
coordinate is clamped with its velocity negated. -/
theorem metaball_reflect_bounds_witness :
    ((31/10 : ℚ) < 4) ∧
    reflectAxis (31/10) 4 7 = (31/10, 7 * -1) ∧
    (-(31/10) ≤ (metaballStepBall 0 sampleBall).x ∧
      (metaballStepBall 0 sampleBall).x ≤ 31/10) :=
  ⟨by norm_num, metaball_reflect_bounds.2.2.1 4 7 (by norm_num),
   (metaball_reflect_bounds.1 0 sampleBall).1⟩

/-- Claim C6: resizing with a zero dimension changes nothing; otherwise
resize recomputes the projection matrix from the new aspect ratio,
rebuilds the depth view, rebuilds the MSAA view exactly when
`sample_count > 1`, and never touches storage buffers or pipelines. -/
theorem resize_spec (s : ResizeState) (w h : Nat) :
    ((w = 0 ∨ h = 0) → resize s w h = s) ∧
    (0 < w → 0 < h →
      (resize s w h).width = w ∧
      (resize s w h).height = h ∧
      (resize s w h).project_mat = create_projection_mat ((w : ℚ) / (h : ℚ)) ∧
      (resize s w h).depth_texture_view = create_depth_view w h ∧
      (1 < s.sample_count →
        (resize s w h).msaa_texture_view = create_msaa_texture_view w h) ∧
      (s.sample_count ≤ 1 →
        (resize s w h).msaa_texture_view = s.msaa_texture_view) ∧
      (resize s w h).storage_buffer_sizes = s.storage_buffer_sizes ∧
      (resize s w h).pipelines = s.pipelines) := by
  constructor
  · intro h0
    unfold resize
    rw [if_neg]
    rintro ⟨hw, hh⟩
    rcases h0 with h0 | h0 <;> omega
  · intro hw hh
    unfold resize
    rw [if_pos ⟨hw, hh⟩]
    refine ⟨rfl, rfl, rfl, rfl, ?_, ?_, rfl, rfl⟩
    · intro hs
      show (if 1 < s.sample_count then create_msaa_texture_view w h
            else s.msaa_texture_view) = create_msaa_texture_view w h
      rw [if_pos hs]
    · intro hs
      show (if 1 < s.sample_count then create_msaa_texture_view w h
            else s.msaa_texture_view) = s.msaa_texture_view
      rw [if_neg (by omega)]

/-- Claim C6, witness: a zero-width resize is the identity on a concrete
state, while a positive resize replaces the projection matrix and keeps
the storage buffers. -/
theorem resize_spec_witness :
    ((0 = 0 ∨ 7 = 0)) ∧
    resize sampleResizeState 0 7 = sampleResizeState ∧
    (0 < 8 ∧ 0 < 6) ∧
    (resize sampleResizeState 8 6).project_mat
      = create_projection_mat ((8 : ℚ) / (6 : ℚ)) ∧
    (resize sampleResizeState 8 6).storage_buffer_sizes
      = sampleResizeState.storage_buffer_sizes :=
  ⟨Or.inl rfl,
   (resize_spec sampleResizeState 0 7).1 (Or.inl rfl),
   ⟨by decide, by decide⟩,
   ((resize_spec sampleResizeState 8 6).2 (by decide) (by decide)).2.2.1,
   ((resize_spec sampleResizeState 8 6).2 (by decide) (by decide)).2.2.2.2.2.2.1⟩

/-- Claim C7: the event loop maps a lost surface to a resize at the
current size (which retains every storage buffer and every pipeline and
continues), out-of-memory to loop exit, and any other surface error to
a log line followed by the next frame. -/
theorem surface_error_policy :
    handleRenderResult (some SurfaceError.Lost) = LoopAction.resizeAtCurrentSize ∧
    (∀ s : ResizeState,
      (resize s s.width s.height).storage_buffer_sizes = s.storage_buffer_sizes ∧
      (resize s s.width s.height).pipelines = s.pipelines) ∧
    handleRenderResult (some SurfaceError.OutOfMemory) = LoopAction.exitLoop ∧
    handleRenderResult (some SurfaceError.Outdated) = LoopAction.logErrorAndContinue ∧
    handleRenderResult (some SurfaceError.Timeout) = LoopAction.logErrorAndContinue ∧
    handleRenderResult none = LoopAction.keepRunning := by
  refine ⟨rfl, ?_, rfl, rfl, rfl, rfl⟩
  intro s
  unfold resize
  split
  · exact ⟨rfl, rfl⟩
  · exact ⟨rfl, rfl⟩

/-- Claim C8: in the implicit-surface program, `surface_type` starts at
2 and stays strictly below 9 under every sequence of key and redraw
events — the Space key advances it modulo 9 and the automatic 5-second
change draws from `0..=8` — so the values 9 (Spider Cage) and 10 (Barth
Sextic), which the surface enumeration does define, are unreachable. -/
theorem implicit_surface_type_range :
    (∀ (resolution : Nat) (start_time : ℚ),
        (implicitInitState resolution start_time).surface_type = 2) ∧
    (∀ (resolution : Nat) (start_time : ℚ) (events : List ImplicitEvent),
        (implicitRun (implicitInitState resolution start_time) events).surface_type < 9) ∧
    (surface_type_map 9).isSome = true ∧
    (surface_type_map 10).isSome = true := by
  refine ⟨fun _ _ => rfl, ?_, rfl, rfl⟩
  intro resolution start_time events
  exact implicitRun_surface_type_lt _ _ (by norm_num [implicitInitState])

/-- Claim C9: the staging array starts all zero; every update writes,
for each of the 200 records, the relaxed strength into slot 4, the
relaxed subtract into slot 5 and `sqrt(strength/subtract)` into slot 3 —
the same three global scalars for every record, so only positions can
differ — and never touches the padding slots 6 and 7, which therefore
stay zero in every frame; the uploaded array is exactly the stored
one. -/
theorem metaball_records_share_scalars :
    (∀ (resolution : Nat) (positions : List MetaballPosition) (t : ℚ) (j : Nat),
        (metaballInitState resolution positions t).metaball_array j = 0) ∧
    (∀ (s : MetaballState) (now u1 u2 : ℚ) (sqrtFn : ℚ → ℚ),
        s.metaball_positions.length = 200 →
        recordPadsZero 200 s.metaball_array →
        (∀ i, i < 200 →
          (metaballUpdate s now u1 u2 sqrtFn).2.metaball_array_upload (i * 8 + 3)
            = sqrtFn (relaxedValue s.strength s.strength_target (now - s.start) /
                      relaxedValue s.subtract s.subtract_target (now - s.start)) ∧
          (metaballUpdate s now u1 u2 sqrtFn).2.metaball_array_upload (i * 8 + 4)
            = relaxedValue s.strength s.strength_target (now - s.start) ∧
          (metaballUpdate s now u1 u2 sqrtFn).2.metaball_array_upload (i * 8 + 5)
            = relaxedValue s.subtract s.subtract_target (now - s.start)) ∧
        recordPadsZero 200
          ((metaballUpdate s now u1 u2 sqrtFn).2.metaball_array_upload) ∧
        (metaballUpdate s now u1 u2 sqrtFn).1.metaball_array
          = (metaballUpdate s now u1 u2 sqrtFn).2.metaball_array_upload) := by
  refine ⟨fun _ _ _ _ => rfl, ?_⟩
  intro s now u1 u2 sqrtFn hlen hpads
  refine ⟨?_, ?_, rfl⟩
  · intro i hi
    have hmap : i < (s.metaball_positions.map
        (metaballStepBall (now - s.start))).length := by
      rw [List.length_map, hlen]
      exact hi
    have h := fillMetaballArray_fields
      (sqrtFn (relaxedValue s.strength s.strength_target (now - s.start) /
               relaxedValue s.subtract s.subtract_target (now - s.start)))
      (relaxedValue s.strength s.strength_target (now - s.start))
      (relaxedValue s.subtract s.subtract_target (now - s.start))
      (s.metaball_positions.map (metaballStepBall (now - s.start)))
      0 i s.metaball_array hmap
    rw [metaballUpdate_upload]
    simpa using h
  · intro i hi
    rw [metaballUpdate_upload]
    rw [fillMetaballArray_pad _ _ _ _ _ _ _ (by omega),
        fillMetaballArray_pad _ _ _ _ _ _ _ (by omega)]
    exact hpads i hi

/-- Claim C9, witness at a concrete 200-ball state, one frame after
construction: slot 4 of record 5 holds the relaxed strength. -/
theorem metaball_records_share_scalars_witness :
    sampleMetaballState.metaball_positions.length = 200 ∧
    recordPadsZero 200 sampleMetaballState.metaball_array ∧
    (metaballUpdate sampleMetaballState 1 0 0 id).2.metaball_array_upload (5 * 8 + 4)
      = relaxedValue sampleMetaballState.strength sampleMetaballState.strength_target
          (1 - sampleMetaballState.start) :=
  ⟨show (List.replicate 200 sampleBall).length = 200 from List.length_replicate 200 sampleBall,
   fun i _ => ⟨rfl, rfl⟩,
   ((metaball_records_share_scalars.2 sampleMetaballState 1 0 0 id
      (show (List.replicate 200 sampleBall).length = 200 from
        List.length_replicate 200 sampleBall)
      (fun i _ => ⟨rfl, rfl⟩)).1 5 (by norm_num)).2.1⟩

/-- Claim C10: every call to either program's update ends by writing the
constant block `[500, 0, 0, 0]` over all 16 bytes of the indirect
parameter buffer, so no GPU-written indirect counts survive into the
next submitted frame. -/
theorem indirect_params_rewritten_every_frame :
    (∀ (s : ImplicitState) (now dt_secs : ℚ) (seed : Nat),
        (implicitUpdate s now dt_secs seed).2.indirect_array = [500, 0, 0, 0]) ∧
    (∀ (s : MetaballState) (now u1 u2 : ℚ) (sqrtFn : ℚ → ℚ),
        (metaballUpdate s now u1 u2 sqrtFn).2.indirect_array = [500, 0, 0, 0]) :=
  ⟨fun _ _ _ _ => rfl, fun _ _ _ _ _ => rfl⟩

end MarchingCubesApp
